import Mathlib

/-!
Verification of the CQRS dispatch core of `express-ts-framework`
(`src/core/cqrs/bus.ts` together with the Unit-of-Work port
`src/adapters/mysql/unit-of-work.interface.ts`).

The command bus, the query bus and the handler map builder are embedded
shallowly: the behaviour of every effectful collaborator during one
`execute` call (the DI container lookups, `beginTransaction`, the handler,
`commit`, `rollback`) is an input record, and `execute` is a pure function
from that record to the observable outcome of the call — the value it
returns or the fault it raises, together with the ordered trace of
Unit-of-Work operations it performed and whether the handler was invoked.
-/

namespace Cqrs

/-- `Modelled from the spec:` the `HttpError` class of
`src/core/errors/http.error.ts` is not under `src/`; per the spec (§3, §6)
it carries a status-like code, a short title and a detail message. -/
structure HttpError where
  code : Nat
  title : String
  detail : String
deriving DecidableEq, Repr

/-- A JavaScript thrown value, as the catch blocks of `bus.ts` discriminate
it: an `HttpError` instance (checked first), any other `Error` instance
(only its `message` is observed), or a non-`Error` value such as a thrown
string (nothing of it is observed). -/
inductive Thrown where
  | httpErr : HttpError → Thrown
  | jsError : String → Thrown
  | nonError : Thrown
deriving DecidableEq, Repr

/-- `Modelled from the spec:` the `Result<T>` type of
`src/core/base/result.ts` is not under `src/`; per the spec (§3, §6) it is
a tagged union of exactly one of `Success(value)` or `Failure(error)`. -/
inductive Result (T : Type) where
  | Success : T → Result T
  | Failure : HttpError → Result T
deriving DecidableEq, Repr

/-- What an `async` method delivers to its caller: a returned value, or a
raised fault (a rejected promise). -/
inductive Outcome (T : Type) where
  | returned : T → Outcome T
  | raised : Thrown → Outcome T
deriving DecidableEq, Repr

/-- A constructor identity used as a handler-map key
(`command.constructor`), together with its `name`. -/
structure Ctor where
  id : Nat
  name : String
deriving DecidableEq, Repr

/-- A handler token (`symbol` in the source); opaque, so any identity
works. -/
abbrev Token := Nat

/-- `createHandlerMap(mappings)` from `bus.ts` line 101: `new Map(mappings)`
— the insertion-ordered list of pairs is retained; JavaScript `Map`
inserts the pairs in order, later pairs overwriting earlier ones with the
same key. -/
def createHandlerMap (mappings : List (Ctor × Token)) : List (Ctor × Token) :=
  mappings

/-- `map.get(k)` on a JavaScript `Map` built from a pair list: the value of
the last pair whose key equals `k`, if any. -/
def mapGet (m : List (Ctor × Token)) (k : Ctor) : Option Token :=
  m.foldl (fun acc p => if p.1 = k then some p.2 else acc) none

/-- One Unit-of-Work operation the command bus may invoke, recorded in the
order the calls are made (whether or not the call then fails). -/
inductive UowEvent where
  | uowBegin
  | uowCommit
  | uowRollback
deriving DecidableEq, Repr

/-- The behaviour, during one `CommandBus.execute` call, of every effectful
collaborator the call consults, in source order:
`Container.get(TOKENS.UnitOfWork)`, `uow.beginTransaction()`,
`Container.get(handlerToken)`, `handler.handle(command)`, `uow.commit()`
and `uow.rollback()`. `Except.error t` means the operation raises `t`. -/
structure CommandEnv (T : Type) where
  uowLookup : Except Thrown Unit
  beginTx : Except Thrown Unit
  handlerLookup : Except Thrown Unit
  handle : Except Thrown T
  commitOp : Except Thrown Unit
  rollbackOp : Except Thrown Unit

/-- Everything one `CommandBus.execute` call observably does. -/
structure CommandExec (T : Type) where
  outcome : Outcome (Result T)
  uowAcquired : Bool
  events : List UowEvent
  handlerInvoked : Bool
deriving Repr

/-- The error classification performed by the catch block of
`CommandBus.execute` (`bus.ts` lines 55–59): an `HttpError` passes through
unchanged; any other `Error` is wrapped as 500 with its message; any other
thrown value is wrapped as 500 with a fixed fallback detail. -/
def classifyCommand : Thrown → HttpError
  | Thrown.httpErr e => e
  | Thrown.jsError m => ⟨500, "Internal Server Error", m⟩
  | Thrown.nonError =>
      ⟨500, "Internal Server Error", "An unknown command execution error occurred."⟩

/-- The catch block of `CommandBus.execute` (`bus.ts` lines 52–60): it
first awaits `uow.rollback()` — a fault raised there escapes the method —
then classifies the original error into a returned `Failure`. -/
def commandCatch (env : CommandEnv T) (t : Thrown) : Outcome (Result T) :=
  match env.rollbackOp with
  | Except.ok _ => Outcome.returned (Result.Failure (classifyCommand t))
  | Except.error t' => Outcome.raised t'

/-- Shallow embedding of `CommandBus.execute` (`bus.ts` lines 33–61).
The nested matches follow the source line by line: registry lookup,
container lookup of the Unit of Work (outside the try), then the try block
`beginTransaction; resolve handler; handle; commit` whose failures all
flow to `commandCatch`. -/
def commandExecute (m : List (Ctor × Token)) (env : CommandEnv T) (c : Ctor) :
    CommandExec T :=
  match mapGet m c with
  | none =>
      { outcome := Outcome.returned (Result.Failure
          ⟨500, "Internal Server Error", "No command handler found for " ++ c.name⟩),
        uowAcquired := false, events := [], handlerInvoked := false }
  | some _ =>
      match env.uowLookup with
      | Except.error t =>
          { outcome := Outcome.raised t, uowAcquired := false,
            events := [], handlerInvoked := false }
      | Except.ok _ =>
          match env.beginTx with
          | Except.error t =>
              { outcome := commandCatch env t, uowAcquired := true,
                events := [UowEvent.uowBegin, UowEvent.uowRollback],
                handlerInvoked := false }
          | Except.ok _ =>
              match env.handlerLookup with
              | Except.error t =>
                  { outcome := commandCatch env t, uowAcquired := true,
                    events := [UowEvent.uowBegin, UowEvent.uowRollback],
                    handlerInvoked := false }
              | Except.ok _ =>
                  match env.handle with
                  | Except.error t =>
                      { outcome := commandCatch env t, uowAcquired := true,
                        events := [UowEvent.uowBegin, UowEvent.uowRollback],
                        handlerInvoked := true }
                  | Except.ok v =>
                      match env.commitOp with
                      | Except.error t =>
                          { outcome := commandCatch env t, uowAcquired := true,
                            events := [UowEvent.uowBegin, UowEvent.uowCommit,
                                       UowEvent.uowRollback],
                            handlerInvoked := true }
                      | Except.ok _ =>
                          { outcome := Outcome.returned (Result.Success v),
                            uowAcquired := true,
                            events := [UowEvent.uowBegin, UowEvent.uowCommit],
                            handlerInvoked := true }

/-- The behaviour, during one `QueryBus.execute` call, of the collaborators
it consults: `Container.get(handlerToken)` and `handler.handle(query)`. -/
structure QueryEnv (T : Type) where
  handlerLookup : Except Thrown Unit
  handle : Except Thrown T

/-- Everything one `QueryBus.execute` call observably does. The trace and
acquisition fields are recorded exactly as for the command bus so that the
absence of Unit-of-Work activity is a statement, not a convention. -/
structure QueryExec (T : Type) where
  outcome : Outcome (Result T)
  uowAcquired : Bool
  events : List UowEvent
  handlerInvoked : Bool
deriving Repr

/-- The error classification performed by the catch block of
`QueryBus.execute` (`bus.ts` lines 91–95); it differs from the command
bus's only in the fallback detail for non-`Error` thrown values. -/
def classifyQuery : Thrown → HttpError
  | Thrown.httpErr e => e
  | Thrown.jsError m => ⟨500, "Internal Server Error", m⟩
  | Thrown.nonError =>
      ⟨500, "Internal Server Error", "An unknown query execution error occurred."⟩

/-- Shallow embedding of `QueryBus.execute` (`bus.ts` lines 78–97):
registry lookup, then the try block `resolve handler; handle`, whose
failures are classified and returned — no Unit-of-Work interaction
appears anywhere in the source of this method. -/
def queryExecute (m : List (Ctor × Token)) (env : QueryEnv T) (q : Ctor) :
    QueryExec T :=
  match mapGet m q with
  | none =>
      { outcome := Outcome.returned (Result.Failure
          ⟨500, "Internal Server Error", "No query handler found for " ++ q.name⟩),
        uowAcquired := false, events := [], handlerInvoked := false }
  | some _ =>
      match env.handlerLookup with
      | Except.error t =>
          { outcome := Outcome.returned (Result.Failure (classifyQuery t)),
            uowAcquired := false, events := [], handlerInvoked := false }
      | Except.ok _ =>
          match env.handle with
          | Except.error t =>
              { outcome := Outcome.returned (Result.Failure (classifyQuery t)),
                uowAcquired := false, events := [], handlerInvoked := true }
          | Except.ok v =>
              { outcome := Outcome.returned (Result.Success v),
                uowAcquired := false, events := [], handlerInvoked := true }

/-- The try block of `CommandBus.execute` fails with thrown value `t` at one
of the three dispatch sites after a successful `beginTransaction`: handler
resolution (`Container.get(handlerToken)`), handler execution
(`handler.handle`), or `commit`. -/
def commandDispatchFails (env : CommandEnv T) (t : Thrown) : Prop :=
  env.beginTx = Except.ok () ∧
  (env.handlerLookup = Except.error t ∨
   (env.handlerLookup = Except.ok () ∧ env.handle = Except.error t) ∨
   (env.handlerLookup = Except.ok () ∧ (∃ v, env.handle = Except.ok v) ∧
    env.commitOp = Except.error t))

/-- The try block of `QueryBus.execute` fails with thrown value `t`: at
handler resolution or at handler execution. -/
def queryDispatchFails (env : QueryEnv T) (t : Thrown) : Prop :=
  env.handlerLookup = Except.error t ∨
  (env.handlerLookup = Except.ok () ∧ env.handle = Except.error t)

/-! Concrete fixtures used by witnesses and counterexamples. -/

/-- A registered command constructor. -/
def ctorA : Ctor := ⟨1, "CreateUser"⟩

/-- An unregistered query constructor. -/
def ctorB : Ctor := ⟨2, "GetUser"⟩

/-- A one-entry handler map registering `ctorA`. -/
def m0 : List (Ctor × Token) := createHandlerMap [(ctorA, 10)]

/-- A fully successful collaborator behaviour: the handler returns `42`. -/
def envAllOk : CommandEnv Nat :=
  ⟨Except.ok (), Except.ok (), Except.ok (), Except.ok 42,
   Except.ok (), Except.ok ()⟩

/-- Collaborator behaviour in which `commit` raises an unclassified error;
everything else succeeds. -/
def envCommitFail : CommandEnv Nat :=
  ⟨Except.ok (), Except.ok (), Except.ok (), Except.ok 42,
   Except.error (Thrown.jsError "commit refused"), Except.ok ()⟩

/-- Collaborator behaviour in which `beginTransaction` raises an
unclassified error; everything else succeeds. -/
def envBeginFail : CommandEnv Nat :=
  ⟨Except.ok (), Except.error (Thrown.jsError "no connection"), Except.ok (),
   Except.ok 42, Except.ok (), Except.ok ()⟩

/-- Collaborator behaviour in which the handler raises an unclassified
error and the subsequent `rollback` itself raises. -/
def envRollbackFail : CommandEnv Nat :=
  ⟨Except.ok (), Except.ok (), Except.ok (),
   Except.error (Thrown.jsError "db down"),
   Except.ok (), Except.error (Thrown.jsError "rollback failed")⟩

/-- Collaborator behaviour in which the handler raises a pre-classified
domain error `(404, Not Found, user missing)`; `rollback` succeeds. -/
def envDomainFail : CommandEnv Nat :=
  ⟨Except.ok (), Except.ok (), Except.ok (),
   Except.error (Thrown.httpErr ⟨404, "Not Found", "user missing"⟩),
   Except.ok (), Except.ok ()⟩

/-- Collaborator behaviour in which the Unit-of-Work container lookup
itself raises. -/
def envUowLookupFail : CommandEnv Nat :=
  ⟨Except.error (Thrown.jsError "no binding for UnitOfWork"), Except.ok (),
   Except.ok (), Except.ok 42, Except.ok (), Except.ok ()⟩

/-- Collaborator behaviour in which the handler throws a non-`Error` value
(for example a plain string); `rollback` succeeds. -/
def envNonErrorFail : CommandEnv Nat :=
  ⟨Except.ok (), Except.ok (), Except.ok (), Except.error Thrown.nonError,
   Except.ok (), Except.ok ()⟩

/-- A fully successful query collaborator behaviour: the handler returns
`7`. -/
def qEnvAllOk : QueryEnv Nat := ⟨Except.ok (), Except.ok 7⟩

/-- Query collaborator behaviour whose handler throws the pre-classified
domain error. -/
def qEnvDomainFail : QueryEnv Nat :=
  ⟨Except.ok (), Except.error (Thrown.httpErr ⟨404, "Not Found", "user missing"⟩)⟩

/-- Query collaborator behaviour whose handler throws a non-`Error`
value. -/
def qEnvNonErrorFail : QueryEnv Nat :=
  ⟨Except.ok (), Except.error Thrown.nonError⟩

/-! Helper lemmas about the handler map. -/

/-- Characterisation of the `Map.get` fold with an arbitrary accumulator:
the fold returns the last binding of `k` in `m` when one exists, and the
accumulator otherwise. -/
theorem foldl_mapGet (m : List (Ctor × Token)) (k : Ctor) (acc : Option Token) :
    m.foldl (fun a p => if p.1 = k then some p.2 else a) acc =
      match mapGet m k with
      | some v => some v
      | none => acc := by
  induction m generalizing acc with
  | nil => simp [mapGet]
  | cons p m ih =>
    simp only [List.foldl_cons]
    rw [ih]
    have h2 : mapGet (p :: m) k =
        match mapGet m k with
        | some v => some v
        | none => if p.1 = k then some p.2 else none := by
      simp only [mapGet, List.foldl_cons]
      rw [ih]
      rfl
    rw [h2]
    cases mapGet m k with
    | some v => rfl
    | none => by_cases hp : p.1 = k <;> simp [hp]

/-- A key bound by no pair of the list resolves to `none`. -/
theorem mapGet_eq_none (m : List (Ctor × Token)) (k : Ctor)
    (h : ∀ p ∈ m, p.1 ≠ k) : mapGet m k = none := by
  induction m with
  | nil => rfl
  | cons p m ih =>
    have hp : p.1 ≠ k := h p (List.mem_cons_self p m)
    have hm : mapGet m k = none := ih fun q hq => h q (List.mem_cons_of_mem p hq)
    simp only [mapGet, List.foldl_cons, hp, if_neg, not_false_iff]
    rw [foldl_mapGet]
    simp [hm]

/-! Claim theorems. -/

/-- C4: for every command or query whose declared type has no entry in the
handler map, `execute` returns a Failure with code 500, title
"Internal Server Error", and a detail naming the missing handler for that
exact type, and no transaction is opened and no Unit-of-Work operation is
invoked. -/
theorem missing_handler_failure (T : Type) (m : List (Ctor × Token))
    (envC : CommandEnv T) (envQ : QueryEnv T) (c : Ctor)
    (h : mapGet m c = none) :
    (commandExecute m envC c).outcome = Outcome.returned (Result.Failure
      ⟨500, "Internal Server Error", "No command handler found for " ++ c.name⟩) ∧
    (commandExecute m envC c).events = [] ∧
    (commandExecute m envC c).uowAcquired = false ∧
    (queryExecute m envQ c).outcome = Outcome.returned (Result.Failure
      ⟨500, "Internal Server Error", "No query handler found for " ++ c.name⟩) ∧
    (queryExecute m envQ c).events = [] ∧
    (queryExecute m envQ c).uowAcquired = false := by
  simp [commandExecute, queryExecute, h]

/-- Witness for `missing_handler_failure` at the unregistered `GetUser`
constructor. -/
theorem missing_handler_failure_witness :
    mapGet m0 ctorB = none ∧
    ((commandExecute m0 envAllOk ctorB).outcome = Outcome.returned (Result.Failure
      ⟨500, "Internal Server Error", "No command handler found for " ++ ctorB.name⟩) ∧
     (commandExecute m0 envAllOk ctorB).events = [] ∧
     (commandExecute m0 envAllOk ctorB).uowAcquired = false ∧
     (queryExecute m0 qEnvAllOk ctorB).outcome = Outcome.returned (Result.Failure
      ⟨500, "Internal Server Error", "No query handler found for " ++ ctorB.name⟩) ∧
     (queryExecute m0 qEnvAllOk ctorB).events = [] ∧
     (queryExecute m0 qEnvAllOk ctorB).uowAcquired = false) :=
  ⟨by decide, missing_handler_failure Nat m0 envAllOk qEnvAllOk ctorB (by decide)⟩

/-- C6: for every command whose type is registered and whose handler and
transaction operations all succeed, `execute` returns `Success` of the
handler's value, with `beginTransaction` and `commit` each called exactly
once and `rollback` never called. -/
theorem command_success_path (T : Type) (m : List (Ctor × Token))
    (env : CommandEnv T) (c : Ctor) (tok : Token) (v : T)
    (hm : mapGet m c = some tok)
    (hu : env.uowLookup = Except.ok ())
    (hb : env.beginTx = Except.ok ())
    (hl : env.handlerLookup = Except.ok ())
    (hh : env.handle = Except.ok v)
    (hc : env.commitOp = Except.ok ()) :
    (commandExecute m env c).outcome = Outcome.returned (Result.Success v) ∧
    (commandExecute m env c).events = [UowEvent.uowBegin, UowEvent.uowCommit] ∧
    (commandExecute m env c).events.count UowEvent.uowBegin = 1 ∧
    (commandExecute m env c).events.count UowEvent.uowCommit = 1 ∧
    (commandExecute m env c).events.count UowEvent.uowRollback = 0 := by
  simp [commandExecute, hm, hu, hb, hl, hh, hc, List.count_cons]

/-- Witness for `command_success_path`: a registered `CreateUser` handler
returning `42` yields `Success 42` with trace `[begin, commit]`. -/
theorem command_success_path_witness :
    mapGet m0 ctorA = some 10 ∧
    ((commandExecute m0 envAllOk ctorA).outcome =
       Outcome.returned (Result.Success 42) ∧
     (commandExecute m0 envAllOk ctorA).events =
       [UowEvent.uowBegin, UowEvent.uowCommit] ∧
     (commandExecute m0 envAllOk ctorA).events.count UowEvent.uowBegin = 1 ∧
     (commandExecute m0 envAllOk ctorA).events.count UowEvent.uowCommit = 1 ∧
     (commandExecute m0 envAllOk ctorA).events.count UowEvent.uowRollback = 0) :=
  ⟨by decide,
   command_success_path Nat m0 envAllOk ctorA 10 42 (by decide) rfl rfl rfl rfl rfl⟩

/-- C7: for every query execution, `QueryBus.execute` never calls
`beginTransaction`, `commit` or `rollback`, and never acquires a Unit of
Work. -/
theorem query_never_uses_uow (T : Type) (m : List (Ctor × Token))
    (env : QueryEnv T) (q : Ctor) :
    (queryExecute m env q).events = [] ∧
    (queryExecute m env q).uowAcquired = false := by
  cases hm : mapGet m q with
  | none => simp [queryExecute, hm]
  | some tok =>
    cases hl : env.handlerLookup with
    | error t => simp [queryExecute, hm, hl]
    | ok u =>
      cases hh : env.handle with
      | error t => simp [queryExecute, hm, hl, hh]
      | ok v => simp [queryExecute, hm, hl, hh]

/-- C9: for every registered command, the Unit of Work is fetched from the
container before the try block: if that container lookup raises, the fault
escapes `execute` as a raised fault instead of a returned Failure, with no
Unit-of-Work operation performed. -/
theorem uow_lookup_failure_escapes (T : Type) (m : List (Ctor × Token))
    (env : CommandEnv T) (c : Ctor) (tok : Token) (t : Thrown)
    (hm : mapGet m c = some tok)
    (hu : env.uowLookup = Except.error t) :
    (commandExecute m env c).outcome = Outcome.raised t ∧
    (commandExecute m env c).events = [] ∧
    (commandExecute m env c).handlerInvoked = false := by
  simp [commandExecute, hm, hu]

/-- Witness for `uow_lookup_failure_escapes` at a concrete failing
container lookup. -/
theorem uow_lookup_failure_escapes_witness :
    mapGet m0 ctorA = some 10 ∧
    envUowLookupFail.uowLookup =
      Except.error (Thrown.jsError "no binding for UnitOfWork") ∧
    ((commandExecute m0 envUowLookupFail ctorA).outcome =
       Outcome.raised (Thrown.jsError "no binding for UnitOfWork") ∧
     (commandExecute m0 envUowLookupFail ctorA).events = [] ∧
     (commandExecute m0 envUowLookupFail ctorA).handlerInvoked = false) :=
  ⟨by decide, rfl,
   uow_lookup_failure_escapes Nat m0 envUowLookupFail ctorA 10
     (Thrown.jsError "no binding for UnitOfWork") (by decide) rfl⟩

/-- C10: a thrown value that is neither an `HttpError` nor an `Error`
instance is discarded: the returned Failure's detail is the fixed fallback
message of the respective bus, while `Error` instances have their message
preserved. -/
theorem nonError_thrown_fallback (m : List (Ctor × Token))
    (envC : CommandEnv Nat) (envQ : QueryEnv Nat) (c : Ctor) (tok : Token)
    (hm : mapGet m c = some tok)
    (hu : envC.uowLookup = Except.ok ())
    (hr : envC.rollbackOp = Except.ok ())
    (hfC : commandDispatchFails envC Thrown.nonError)
    (hfQ : queryDispatchFails envQ Thrown.nonError) :
    (commandExecute m envC c).outcome = Outcome.returned (Result.Failure
      ⟨500, "Internal Server Error",
       "An unknown command execution error occurred."⟩) ∧
    (queryExecute m envQ c).outcome = Outcome.returned (Result.Failure
      ⟨500, "Internal Server Error",
       "An unknown query execution error occurred."⟩) ∧
    (∀ msg, classifyCommand (Thrown.jsError msg) =
       ⟨500, "Internal Server Error", msg⟩) ∧
    (∀ msg, classifyQuery (Thrown.jsError msg) =
       ⟨500, "Internal Server Error", msg⟩) := by
  obtain ⟨hb, hsite⟩ := hfC
  refine ⟨?_, ?_, fun msg => rfl, fun msg => rfl⟩
  · rcases hsite with hl | ⟨hl, hh⟩ | ⟨hl, ⟨v, hv⟩, hc⟩ <;>
      simp [commandExecute, commandCatch, classifyCommand, hm, hu, hb, hr,
            hl, *]
  · rcases hfQ with hl | ⟨hl, hh⟩ <;>
      simp [queryExecute, classifyQuery, hm, *]

/-- Witness for `nonError_thrown_fallback`: both handlers throw a plain
string. -/
theorem nonError_thrown_fallback_witness :
    mapGet m0 ctorA = some 10 ∧
    commandDispatchFails envNonErrorFail Thrown.nonError ∧
    queryDispatchFails qEnvNonErrorFail Thrown.nonError ∧
    ((commandExecute m0 envNonErrorFail ctorA).outcome =
       Outcome.returned (Result.Failure
        ⟨500, "Internal Server Error",
         "An unknown command execution error occurred."⟩) ∧
     (queryExecute m0 qEnvNonErrorFail ctorA).outcome =
       Outcome.returned (Result.Failure
        ⟨500, "Internal Server Error",
         "An unknown query execution error occurred."⟩)) :=
  ⟨by decide,
   ⟨rfl, Or.inr (Or.inl ⟨rfl, rfl⟩)⟩,
   Or.inr ⟨rfl, rfl⟩,
   (nonError_thrown_fallback m0 envNonErrorFail qEnvNonErrorFail ctorA 10
      (by decide) rfl rfl ⟨rfl, Or.inr (Or.inl ⟨rfl, rfl⟩)⟩
      (Or.inr ⟨rfl, rfl⟩)).1,
   (nonError_thrown_fallback m0 envNonErrorFail qEnvNonErrorFail ctorA 10
      (by decide) rfl rfl ⟨rfl, Or.inr (Or.inl ⟨rfl, rfl⟩)⟩
      (Or.inr ⟨rfl, rfl⟩)).2.1⟩

/-- C1 counterexample: with a registered type and a failing `commit`, one
`execute` call calls `beginTransaction`, `commit` and `rollback` once
each — `commit` and `rollback` are both called within the same call,
contrary to the claim that they never are. -/
theorem commit_and_rollback_both_called :
    (commandExecute m0 envCommitFail ctorA).events =
      [UowEvent.uowBegin, UowEvent.uowCommit, UowEvent.uowRollback] ∧
    (commandExecute m0 envCommitFail ctorA).events.count UowEvent.uowBegin = 1 ∧
    (commandExecute m0 envCommitFail ctorA).events.count UowEvent.uowCommit = 1 ∧
    (commandExecute m0 envCommitFail ctorA).events.count
      UowEvent.uowRollback = 1 := by
  decide

/-- C1 amended: if the registry lookup fails no Unit-of-Work operation is
invoked; in any call that calls `beginTransaction`, begin is called exactly
once, `commit` and `rollback` are each called at most once, at least one of
them is called, and both are called exactly when the `commit` call itself
fails after a successful handler run. -/
theorem command_uow_call_discipline (T : Type) (m : List (Ctor × Token))
    (env : CommandEnv T) (c : Ctor) :
    (mapGet m c = none → (commandExecute m env c).events = []) ∧
    (UowEvent.uowBegin ∈ (commandExecute m env c).events →
      (commandExecute m env c).events.count UowEvent.uowBegin = 1 ∧
      (commandExecute m env c).events.count UowEvent.uowCommit ≤ 1 ∧
      (commandExecute m env c).events.count UowEvent.uowRollback ≤ 1 ∧
      1 ≤ (commandExecute m env c).events.count UowEvent.uowCommit +
          (commandExecute m env c).events.count UowEvent.uowRollback ∧
      ((commandExecute m env c).events.count UowEvent.uowCommit = 1 ∧
       (commandExecute m env c).events.count UowEvent.uowRollback = 1 ↔
        env.beginTx = Except.ok () ∧ env.handlerLookup = Except.ok () ∧
        (∃ v, env.handle = Except.ok v) ∧
        (∃ t, env.commitOp = Except.error t))) := by
  cases hm : mapGet m c with
  | none => simp [commandExecute, hm]
  | some tok =>
    cases hu : env.uowLookup with
    | error t => simp [commandExecute, hm, hu]
    | ok u =>
      cases hb : env.beginTx with
      | error t => simp [commandExecute, hm, hu, hb, List.count_cons]
      | ok u2 =>
        cases hl : env.handlerLookup with
        | error t => simp [commandExecute, hm, hu, hb, hl, List.count_cons]
        | ok u3 =>
          cases hh : env.handle with
          | error t =>
            simp [commandExecute, hm, hu, hb, hl, hh, List.count_cons]
          | ok v =>
            cases hc : env.commitOp with
            | error t =>
              simp [commandExecute, hm, hu, hb, hl, hh, hc, List.count_cons]
            | ok u4 =>
              simp [commandExecute, hm, hu, hb, hl, hh, hc, List.count_cons]

/-- Witness for `command_uow_call_discipline` at the commit-failure
behaviour. -/
theorem command_uow_call_discipline_witness :
    UowEvent.uowBegin ∈ (commandExecute m0 envCommitFail ctorA).events ∧
    ((commandExecute m0 envCommitFail ctorA).events.count UowEvent.uowBegin = 1 ∧
     (commandExecute m0 envCommitFail ctorA).events.count UowEvent.uowCommit ≤ 1 ∧
     (commandExecute m0 envCommitFail ctorA).events.count
       UowEvent.uowRollback ≤ 1 ∧
     1 ≤ (commandExecute m0 envCommitFail ctorA).events.count UowEvent.uowCommit +
         (commandExecute m0 envCommitFail ctorA).events.count
           UowEvent.uowRollback ∧
     ((commandExecute m0 envCommitFail ctorA).events.count UowEvent.uowCommit = 1 ∧
      (commandExecute m0 envCommitFail ctorA).events.count
        UowEvent.uowRollback = 1 ↔
       envCommitFail.beginTx = Except.ok () ∧
       envCommitFail.handlerLookup = Except.ok () ∧
       (∃ v, envCommitFail.handle = Except.ok v) ∧
       (∃ t, envCommitFail.commitOp = Except.error t))) :=
  ⟨by decide,
   (command_uow_call_discipline Nat m0 envCommitFail ctorA).2 (by decide)⟩

/-- C2 counterexample: when `beginTransaction` fails, the catch block still
calls `rollback` once (from the Idle state), contrary to the claim that
neither `commit` nor `rollback` is called. -/
theorem begin_failure_triggers_rollback :
    envBeginFail.beginTx = Except.error (Thrown.jsError "no connection") ∧
    (commandExecute m0 envBeginFail ctorA).events =
      [UowEvent.uowBegin, UowEvent.uowRollback] ∧
    (commandExecute m0 envBeginFail ctorA).events.count
      UowEvent.uowRollback = 1 :=
  ⟨rfl, by decide, by decide⟩

/-- C2 amended: if `beginTransaction` fails for a registered command, no
handler is invoked and `commit` is never called, but the bus does call
`rollback` once; provided that `rollback` call succeeds, the begin failure
is returned to the caller as a classified Failure (unchanged if already
classified, otherwise wrapped as a 500 infrastructure error). -/
theorem begin_failure_behaviour (T : Type) (m : List (Ctor × Token))
    (env : CommandEnv T) (c : Ctor) (tok : Token) (t : Thrown)
    (hm : mapGet m c = some tok)
    (hu : env.uowLookup = Except.ok ())
    (hb : env.beginTx = Except.error t) :
    (commandExecute m env c).handlerInvoked = false ∧
    (commandExecute m env c).events =
      [UowEvent.uowBegin, UowEvent.uowRollback] ∧
    (commandExecute m env c).events.count UowEvent.uowCommit = 0 ∧
    (env.rollbackOp = Except.ok () →
      (commandExecute m env c).outcome =
        Outcome.returned (Result.Failure (classifyCommand t))) := by
  refine ⟨?_, ?_, ?_, ?_⟩
  · simp [commandExecute, hm, hu, hb]
  · simp [commandExecute, hm, hu, hb]
  · simp [commandExecute, hm, hu, hb, List.count_cons]
  · intro hr
    simp [commandExecute, commandCatch, hm, hu, hb, hr]

/-- Witness for `begin_failure_behaviour` at a concrete failing
`beginTransaction`. -/
theorem begin_failure_behaviour_witness :
    mapGet m0 ctorA = some 10 ∧
    envBeginFail.rollbackOp = Except.ok () ∧
    ((commandExecute m0 envBeginFail ctorA).handlerInvoked = false ∧
     (commandExecute m0 envBeginFail ctorA).events =
       [UowEvent.uowBegin, UowEvent.uowRollback] ∧
     (commandExecute m0 envBeginFail ctorA).events.count UowEvent.uowCommit = 0 ∧
     (commandExecute m0 envBeginFail ctorA).outcome =
       Outcome.returned (Result.Failure
         ⟨500, "Internal Server Error", "no connection"⟩)) := by
  have h := begin_failure_behaviour Nat m0 envBeginFail ctorA 10
    (Thrown.jsError "no connection") (by decide) rfl rfl
  exact ⟨by decide, rfl, h.1, h.2.1, h.2.2.1, h.2.2.2 rfl⟩

/-- C3 counterexample: the catch block awaits `rollback` without its own
protection, so a failure raised during rollback escapes `execute` as a
raised fault — it is surfaced to the caller, contrary to the claim. -/
theorem rollback_failure_escapes :
    (commandExecute m0 envRollbackFail ctorA).outcome =
      Outcome.raised (Thrown.jsError "rollback failed") := by
  decide

/-- C3 amended: `QueryBus.execute` always returns a Result;
`CommandBus.execute` returns a Result for every handler-level failure
provided the `rollback` call itself succeeds; when `rollback` raises
after a dispatch failure, that rollback fault escapes `execute` to the
caller. -/
theorem execute_returns_result (T : Type) (m : List (Ctor × Token))
    (envC envC2 : CommandEnv T) (envQ : QueryEnv T) (c : Ctor)
    (t t' : Thrown)
    (hu : envC.uowLookup = Except.ok ())
    (hr : envC.rollbackOp = Except.ok ()) :
    (∃ r, (commandExecute m envC c).outcome = Outcome.returned r) ∧
    (∃ r, (queryExecute m envQ c).outcome = Outcome.returned r) ∧
    ((∃ tok, mapGet m c = some tok) →
      envC2.uowLookup = Except.ok () → commandDispatchFails envC2 t →
      envC2.rollbackOp = Except.error t' →
      (commandExecute m envC2 c).outcome = Outcome.raised t') := by
  refine ⟨?_, ?_, ?_⟩
  · cases hm : mapGet m c with
    | none =>
      simp only [commandExecute, hm]
      exact ⟨_, rfl⟩
    | some tok =>
      cases hb : envC.beginTx with
      | error t0 =>
        simp only [commandExecute, commandCatch, hm, hu, hb, hr]
        exact ⟨_, rfl⟩
      | ok u =>
        cases hl : envC.handlerLookup with
        | error t0 =>
          simp only [commandExecute, commandCatch, hm, hu, hb, hl, hr]
          exact ⟨_, rfl⟩
        | ok u2 =>
          cases hh : envC.handle with
          | error t0 =>
            simp only [commandExecute, commandCatch, hm, hu, hb, hl, hh, hr]
            exact ⟨_, rfl⟩
          | ok v =>
            cases hc : envC.commitOp with
            | error t0 =>
              simp only [commandExecute, commandCatch, hm, hu, hb, hl, hh, hc,
                hr]
              exact ⟨_, rfl⟩
            | ok u3 =>
              simp only [commandExecute, hm, hu, hb, hl, hh, hc]
              exact ⟨_, rfl⟩
  · cases hm : mapGet m c with
    | none =>
      simp only [queryExecute, hm]
      exact ⟨_, rfl⟩
    | some tok =>
      cases hl : envQ.handlerLookup with
      | error t0 =>
        simp only [queryExecute, hm, hl]
        exact ⟨_, rfl⟩
      | ok u =>
        cases hh : envQ.handle with
        | error t0 =>
          simp only [queryExecute, hm, hl, hh]
          exact ⟨_, rfl⟩
        | ok v =>
          simp only [queryExecute, hm, hl, hh]
          exact ⟨_, rfl⟩
  · rintro ⟨tok, hm⟩ hu2 hf hr2
    obtain ⟨hb, hsite⟩ := hf
    rcases hsite with hl | ⟨hl, hh⟩ | ⟨hl, ⟨v, hv⟩, hc⟩ <;>
      simp [commandExecute, commandCatch, hm, hu2, hb, hr2, hl, *]

/-- Witness for `execute_returns_result`: a classified handler failure with
a succeeding rollback yields a returned Result, while a failing rollback
after a handler failure raises. -/
theorem execute_returns_result_witness :
    (∃ r, (commandExecute m0 envDomainFail ctorA).outcome =
       Outcome.returned r) ∧
    (∃ r, (queryExecute m0 qEnvAllOk ctorA).outcome = Outcome.returned r) ∧
    (commandExecute m0 envRollbackFail ctorA).outcome =
      Outcome.raised (Thrown.jsError "rollback failed") := by
  have h := execute_returns_result Nat m0 envDomainFail envRollbackFail
    qEnvAllOk ctorA (Thrown.jsError "db down")
    (Thrown.jsError "rollback failed") rfl rfl
  exact ⟨h.1, h.2.1,
    h.2.2 ⟨10, by decide⟩ rfl ⟨rfl, Or.inr (Or.inl ⟨rfl, rfl⟩)⟩ rfl⟩

/-- C5: failures from handler resolution, handler execution or commit are
classified identically by both buses — a pre-classified error is returned
unchanged as its Failure, any `Error` is wrapped as
`500 / Internal Server Error` with the original message — and on the
command bus the Failure is returned after `rollback` is called. -/
theorem error_classification_rule (T : Type) (m : List (Ctor × Token))
    (envC : CommandEnv T) (envQ : QueryEnv T) (c : Ctor) (tok : Token)
    (t : Thrown) (e : HttpError) (msg : String)
    (hm : mapGet m c = some tok)
    (hu : envC.uowLookup = Except.ok ())
    (hr : envC.rollbackOp = Except.ok ())
    (hfC : commandDispatchFails envC t)
    (hfQ : queryDispatchFails envQ t) :
    (commandExecute m envC c).outcome =
      Outcome.returned (Result.Failure (classifyCommand t)) ∧
    UowEvent.uowRollback ∈ (commandExecute m envC c).events ∧
    (queryExecute m envQ c).outcome =
      Outcome.returned (Result.Failure (classifyQuery t)) ∧
    (t = Thrown.httpErr e → classifyCommand t = e ∧ classifyQuery t = e) ∧
    (t = Thrown.jsError msg →
      classifyCommand t = ⟨500, "Internal Server Error", msg⟩ ∧
      classifyQuery t = ⟨500, "Internal Server Error", msg⟩) := by
  obtain ⟨hb, hsite⟩ := hfC
  refine ⟨?_, ?_, ?_, ?_, ?_⟩
  · rcases hsite with hl | ⟨hl, hh⟩ | ⟨hl, ⟨v, hv⟩, hc⟩ <;>
      simp [commandExecute, commandCatch, hm, hu, hb, hr, hl, *]
  · rcases hsite with hl | ⟨hl, hh⟩ | ⟨hl, ⟨v, hv⟩, hc⟩ <;>
      simp [commandExecute, hm, hu, hb, hl, *]
  · rcases hfQ with hl | ⟨hl, hh⟩ <;> simp [queryExecute, hm, *]
  · rintro rfl; exact ⟨rfl, rfl⟩
  · rintro rfl; exact ⟨rfl, rfl⟩

/-- Witness for `error_classification_rule`: both handlers throw the
pre-classified `(404, Not Found, user missing)` domain error, which passes
through unchanged, after rollback on the command bus. -/
theorem error_classification_rule_witness :
    mapGet m0 ctorA = some 10 ∧
    commandDispatchFails envDomainFail
      (Thrown.httpErr ⟨404, "Not Found", "user missing"⟩) ∧
    queryDispatchFails qEnvDomainFail
      (Thrown.httpErr ⟨404, "Not Found", "user missing"⟩) ∧
    ((commandExecute m0 envDomainFail ctorA).outcome =
       Outcome.returned (Result.Failure ⟨404, "Not Found", "user missing"⟩) ∧
     UowEvent.uowRollback ∈ (commandExecute m0 envDomainFail ctorA).events ∧
     (queryExecute m0 qEnvDomainFail ctorA).outcome =
       Outcome.returned (Result.Failure ⟨404, "Not Found", "user missing"⟩)) := by
  have h := error_classification_rule Nat m0 envDomainFail qEnvDomainFail
    ctorA 10 (Thrown.httpErr ⟨404, "Not Found", "user missing"⟩)
    ⟨404, "Not Found", "user missing"⟩ "db down" (by decide) rfl rfl
    ⟨rfl, Or.inr (Or.inl ⟨rfl, rfl⟩)⟩ (Or.inr ⟨rfl, rfl⟩)
  exact ⟨by decide, ⟨rfl, Or.inr (Or.inl ⟨rfl, rfl⟩)⟩, Or.inr ⟨rfl, rfl⟩,
    h.1, h.2.1, h.2.2.1⟩

/-- C8: the handler map built by `createHandlerMap` maps each registered
type to exactly one token, the last pair of the sequence for that type
winning over any earlier duplicate registration; unregistered types
resolve to `none`. -/
theorem handlerMap_last_write_wins (pre suf : List (Ctor × Token))
    (k : Ctor) (tok : Token)
    (hsuf : ∀ p ∈ suf, p.1 ≠ k) :
    mapGet (createHandlerMap (pre ++ (k, tok) :: suf)) k = some tok ∧
    (∀ k' : Ctor, (∀ p ∈ pre ++ (k, tok) :: suf, p.1 ≠ k') →
      mapGet (createHandlerMap (pre ++ (k, tok) :: suf)) k' = none) := by
  constructor
  · have hsufnone : mapGet suf k = none := mapGet_eq_none suf k hsuf
    have hcons : mapGet ((k, tok) :: suf) k = some tok := by
      simp only [mapGet, List.foldl_cons]
      rw [foldl_mapGet]
      simp [hsufnone]
    show List.foldl (fun a p => if p.1 = k then some p.2 else a) none
      (pre ++ (k, tok) :: suf) = some tok
    rw [List.foldl_append, foldl_mapGet]
    simp [hcons]
  · intro k' h
    exact mapGet_eq_none _ k' h

/-- Witness for `handlerMap_last_write_wins`: two registrations of
`CreateUser`; the later token `10` wins over the earlier token `5`. -/
theorem handlerMap_last_write_wins_witness :
    mapGet (createHandlerMap ([(ctorA, 5)] ++ (ctorA, 10) :: [(ctorB, 7)]))
      ctorA = some 10 :=
  (handlerMap_last_write_wins [(ctorA, 5)] [(ctorB, 7)] ctorA 10
    (by decide)).1

end Cqrs
